import Mathlib

/-!
Verification development for the ScrapeEliza page-extraction engine
(`enhanced_scraper.py`, `screenshot_manager.py`).

The Python sources are shallowly embedded: pure logic is translated
directly; calls into external libraries (requests, BeautifulSoup, extruct,
PIL, selenium, urllib) are modelled as oracle parameters supplying those
libraries' observable results; side effects (network requests, sleeps,
browser teardown) are made explicit as event traces returned alongside
each function's value.
-/

namespace ScrapeEliza

/-! ### Python string primitives, embedded structurally -/

/-- Accumulator loop for Python str.split() with no arguments:
splits on runs of whitespace and drops empty tokens. -/
def splitWsAux : List Char → List Char → List (List Char)
  | [], acc => if acc.isEmpty then [] else [acc.reverse]
  | c :: rest, acc =>
      if c.isWhitespace then
        (if acc.isEmpty then splitWsAux rest [] else acc.reverse :: splitWsAux rest [])
      else splitWsAux rest (c :: acc)

/-- Tokens of Python str.split() with no arguments. -/
def pyStrSplit (s : String) : List String :=
  (splitWsAux s.data []).map (fun cs => ⟨cs⟩)

/-- Token count used for the word_count fields: len(text.split()). -/
def wordCount (s : String) : Nat := (pyStrSplit s).length

/-- Python str.lower(). -/
def pyLower (s : String) : String := ⟨s.data.map Char.toLower⟩

/-- Python str.strip(). -/
def pyStrip (s : String) : String :=
  ⟨((s.data.dropWhile Char.isWhitespace).reverse.dropWhile Char.isWhitespace).reverse⟩

/-- Substring occurrence over character lists; drives the Python `in` test. -/
def listSub (needle : List Char) : List Char → Bool
  | [] => needle.isEmpty
  | c :: rest => needle.isPrefixOf (c :: rest) || listSub needle rest

/-- Python substring containment: needle in hay. -/
def pyIn (needle hay : String) : Bool := listSub needle.data hay.data

/-- Python str.startswith(p). -/
def pyStartsWith (s p : String) : Bool := p.data.isPrefixOf s.data

/-! ### Heading extraction (scrape_url lines 453-462, HeadingData lines 54-58)

The parsed document's heading occurrences are supplied by the
BeautifulSoup oracle as a list of (level, text) pairs in document order;
soup.find_all("h" + level) is the document-order sublist of a given level. -/

structure HeadingData where
  level : Nat
  text : String
  word_count : Nat
deriving DecidableEq, Repr

/-- Heading loop of EnhancedWebScraper.scrape_url:
for level in range(1,7): for heading in soup.find_all(h-level):
append HeadingData(level, text, len(text.split())). -/
def extract_headings (doc : List (Nat × String)) : List HeadingData :=
  (List.range' 1 6).flatMap (fun level =>
    (doc.filter (fun h => h.fst == level)).map
      (fun h => ⟨level, h.snd, wordCount h.snd⟩))

/-! ### Network calls and the event trace -/

/-- One HTTP request issued through the requests session, tagged with the
connect/read timeout pair that the call site passes, or none when the call
site passes no timeout argument (requests then applies no timeout; the
session.timeout attribute set in the constructor is not consulted by the
requests library). -/
inductive NetCall where
  | robotsFetch (url : String) (timeoutArg : Option (Nat × Nat))
  | pageFetch (url : String) (timeoutArg : Option (Nat × Nat))
  | imageFetch (url : String) (timeoutArg : Option (Nat × Nat))
  | headFetch (url : String) (timeoutArg : Option (Nat × Nat))
deriving DecidableEq, Repr

/-- Connect/read timeout pair actually passed at the call site. -/
def NetCall.timeoutOf : NetCall → Option (Nat × Nat)
  | .robotsFetch _ t => t
  | .pageFetch _ t => t
  | .imageFetch _ t => t
  | .headFetch _ t => t

/-- Connect/read timeout pair that each call-site kind passes in the
source: robots.txt fetch (5, 10); main page fetch (15, 45) via the
session.timeout tuple passed explicitly; image fetch (5, 10); the
internal-link HEAD check passes no timeout argument at all. -/
def NetCall.sourceTimeoutOf : NetCall → Option (Nat × Nat)
  | .robotsFetch _ _ => some (5, 10)
  | .pageFetch _ _ => some (15, 45)
  | .imageFetch _ _ => some (5, 10)
  | .headFetch _ _ => none

/-- Observable steps of one scrape_url call. -/
inductive Event where
  | net (call : NetCall)
  | robotsParse
  | robotsEval
  | rateWait
  | screenshotRun (url : String)
  | parseHtml
deriving DecidableEq, Repr

/-- Oracle for the urllib.parse functions used by the scraper. -/
structure UrlLib where
  urljoin : String → String → String
  netloc : String → String
  scheme : String → String

/-! ### Politeness Gate: respect_robots_txt (lines 155-171) -/

/-- Outcome of the robots.txt GET: either some exception was raised
(connection error, timeout, ...) or a response with a status code and a
body came back. -/
inductive RobotsFetchResult where
  | excRaised (msg : String)
  | response (statusCode : Nat) (body : String)
deriving DecidableEq, Repr

/-- Robots.txt URL built from the page URL: scheme://netloc/robots.txt. -/
def robotsUrlOf (U : UrlLib) (url : String) : String :=
  U.scheme url ++ "://" ++ U.netloc url ++ "/robots.txt"

/-- EnhancedWebScraper.respect_robots_txt. canFetch models the
urllib.robotparser evaluation, after parsing the given robots.txt body,
of can_fetch for the wildcard agent against the candidate URL. Any
exception and any non-200 status return True (fail open); only a 200
response parses the directives and evaluates can_fetch. -/
def respect_robots_txt (U : UrlLib) (canFetch : String → String → Bool)
    (url : String) (res : RobotsFetchResult) : Bool × List Event :=
  match res with
  | .excRaised _ => (true, [.net (.robotsFetch (robotsUrlOf U url) (some (5, 10)))])
  | .response code body =>
      if code == 200 then
        (canFetch body url,
         [.net (.robotsFetch (robotsUrlOf U url) (some (5, 10))), .robotsParse, .robotsEval])
      else
        (true, [.net (.robotsFetch (robotsUrlOf U url) (some (5, 10)))])

/-! ### Politeness Gate: respect_rate_limits (lines 173-190) -/

/-- Sleeps performed by one respect_rate_limits call together with the
timestamp it records afterwards. Time is rational-valued wall-clock
seconds; intervalSleep is the conditional minimum-interval wait,
jitterSleep the unconditional random.uniform(2, 7) delay, and newLast the
time.time() value written into last_request_time for the domain (taken
after both sleeps have elapsed). -/
structure RateResult where
  intervalSleep : Rat
  jitterSleep : Rat
  newLast : Rat
deriving DecidableEq, Repr

/-- EnhancedWebScraper.respect_rate_limits for one domain. last is the
stored last_request_time entry for the domain (none when the domain was
never requested), now is time.time() on entry, jitter the value drawn by
random.uniform(2, 7). The minimum-interval wait runs only when a prior
timestamp exists and less than minInterval elapsed; the jitter sleep runs
unconditionally. -/
def respect_rate_limits (last : Option Rat) (minInterval now jitter : Rat) : RateResult :=
  let intervalSleep :=
    match last with
    | some t => if now - t < minInterval then minInterval - (now - t) else 0
    | none => 0
  ⟨intervalSleep, jitter, now + intervalSleep + jitter⟩

/-! ### Sub-resource resolution: get_image_data (lines 192-253) -/

structure ImgTag where
  src : String
  alt : String
  title : Option String
  width : Option String
  height : Option String
deriving DecidableEq, Repr

/-- Width, height and format read by PIL from the fetched bytes. -/
structure PILImageInfo where
  width : Nat
  height : Nat
  format : Option String
deriving DecidableEq, Repr

/-- Outcome of the image GET: an exception, or a response carrying a
status code, a byte length, and the result of Image.open on the body
(Except.error when PIL raises on decode). -/
inductive ImgFetchOutcome where
  | excRaised (msg : String)
  | resp (statusCode : Nat) (contentLength : Nat) (decoded : Except String PILImageInfo)

/-- Width/height value of an ImageData entry: either the markup attribute
string or the PIL-measured pixel count (the Python field holds whichever
the expression attr or img.width produced). -/
inductive DimVal where
  | fromAttr (s : String)
  | fromImage (n : Nat)
deriving DecidableEq, Repr

structure ImageData where
  url : String
  alt : String
  title : Option String
  width : Option DimVal
  height : Option DimVal
  file_size : Option Nat
  format : Option String
  is_data_url : Bool
deriving DecidableEq, Repr

/-- Python truthiness of attr or img.width: a present non-empty attribute
string wins, otherwise the PIL measurement. -/
def pyAttrOr (attr : Option String) (measured : Nat) : Option DimVal :=
  match attr with
  | some s => if s == "" then some (.fromImage measured) else some (.fromAttr s)
  | none => some (.fromImage measured)

/-- Substrings whose presence in the lowered src marks a tracking pixel. -/
def trackerSubs : List String := ["facebook.com/tr", "pixel", "tracking", "analytics"]

/-- Inner try block of get_image_data for an ordinary URL: fetch the
image bytes with timeout (5, 10), and on a 200 response decode them with
PIL; a raised fetch exception, a PIL decode failure, or a non-200 status
all leave the entry as None. -/
def fetch_image_entry (fetchImage : String → ImgFetchOutcome) (src : String)
    (alt : String) (title wAttr hAttr : Option String) : Option ImageData × List Event :=
  match fetchImage src with
  | .excRaised _ => (none, [.net (.imageFetch src (some (5, 10)))])
  | .resp code len decoded =>
      if code == 200 then
        match decoded with
        | .error _ => (none, [.net (.imageFetch src (some (5, 10)))])
        | .ok img =>
            (some ⟨src, alt, title, pyAttrOr wAttr img.width,
                   pyAttrOr hAttr img.height, some len, img.format, false⟩,
             [.net (.imageFetch src (some (5, 10)))])
      else (none, [.net (.imageFetch src (some (5, 10)))])

/-- EnhancedWebScraper.get_image_data. Returns the entry (None becomes
none) and the network calls issued. Branches in source order: tracker
substrings; data URLs that are not image data URLs; empty or javascript
sources; relative-URL resolution; data URLs; ordinary fetch. For a data
URL the source constructs ImageData(url, alt, title, width, height,
is_data_url=True) omitting the dataclass fields file_size and format,
which have no default values, so the constructor raises TypeError at
runtime and the enclosing handler turns the entry into None; the
embedding returns that runtime result. -/
def get_image_data (U : UrlLib) (fetchImage : String → ImgFetchOutcome)
    (tag : ImgTag) (base_url : String) : Option ImageData × List Event :=
  if trackerSubs.any (fun t => pyIn t (pyLower tag.src)) then (none, [])
  else if pyStartsWith tag.src "data:" && !pyStartsWith tag.src "data:image/" then (none, [])
  else if tag.src == "" || pyStartsWith tag.src "javascript:" then (none, [])
  else
    let src :=
      if !(pyStartsWith tag.src "http://" || pyStartsWith tag.src "https://"
            || pyStartsWith tag.src "data:")
      then U.urljoin base_url tag.src else tag.src
    if pyStartsWith src "data:" then (none, [])
    else fetch_image_entry fetchImage src tag.alt tag.title tag.width tag.height

/-! ### Sub-resource resolution: get_link_data (lines 255-288) -/

structure ATag where
  href : String
  text : String
  rel : List String
deriving DecidableEq, Repr

structure LinkData where
  url : String
  anchor_text : String
  is_internal : Bool
  is_nofollow : Bool
  status_code : Option Nat
  depth : Option Nat
deriving DecidableEq, Repr

/-- EnhancedWebScraper.get_link_data. headResult models
session.head(url, allow_redirects=True): a status code or an exception.
The HEAD call site passes no timeout argument. A HEAD exception leaves
status_code as None (bare except: pass). -/
def get_link_data (U : UrlLib) (headResult : String → Except String Nat)
    (tag : ATag) (base_url : String) : Option LinkData × List Event :=
  if tag.href == "" then (none, [])
  else if pyStartsWith tag.href "javascript:" || pyStartsWith tag.href "mailto:"
      || pyStartsWith tag.href "tel:" then (none, [])
  else
    let url := U.urljoin base_url tag.href
    let isInt := U.netloc url == U.netloc base_url
    if isInt then
      let status :=
        match headResult url with
        | .ok code => some code
        | .error _ => none
      (some ⟨url, tag.text, true, tag.rel.contains "nofollow", status, none⟩,
       [.net (.headFetch url none)])
    else
      (some ⟨url, tag.text, false, tag.rel.contains "nofollow", none, none⟩, [])

/-! ### Structured data: get_structured_data (lines 290-320) -/

/-- Containers returned by extruct.extract for the requested syntaxes
(payload items kept opaque as strings). -/
structure ExtructOut where
  json_ld : List String
  opengraph : List String
  microdata : List String
  rdfa : List String
deriving DecidableEq, Repr

structure StructuredData where
  schema_org : List String
  open_graph : List String
  twitter_cards : List (String × String)
  microdata : List String
  rdfa : List String
  json_ld : List String
deriving DecidableEq, Repr

/-- EnhancedWebScraper.get_structured_data. extructRun models the whole
try body applied to (html, url): extruct.extract plus the BeautifulSoup
scan of meta name=twitter tags into a flat key/value map; Except.error
models any exception raised inside, which the source logs and converts to
a None return. schema_org and json_ld are both filled from the json-ld
container, as in the source. -/
def get_structured_data
    (extructRun : String → String → Except String (ExtructOut × List (String × String)))
    (html url : String) : Option StructuredData :=
  match extructRun html url with
  | .error _ => none
  | .ok (out, twitter) =>
      some ⟨out.json_ld, out.opengraph, twitter, out.microdata, out.rdfa, out.json_ld⟩

/-! ### ScreenshotManager.take_screenshots (screenshot_manager.py lines 12-82) -/

/-- ScreenshotManager.RESOLUTIONS: device profile name with viewport
width and height, in insertion order. -/
def RESOLUTIONS : List (String × Nat × Nat) :=
  [("desktop_1920", 1920, 1080), ("desktop_1440", 1440, 900), ("laptop_1366", 1366, 768),
   ("tablet_1024", 1024, 768), ("mobile_375", 375, 812), ("mobile_360", 360, 640)]

/-- Observable browser-session steps of one take_screenshots call. -/
inductive ShotEvent where
  | createDriver
  | quitDriver
deriving DecidableEq, Repr

/-- Result dictionary of take_screenshots. paths is none when the key is
absent (the disabled dictionary assembled by scrape_url), some list when
present; the failure dictionaries carry an empty paths map. -/
structure ScreenshotsDict where
  status : String
  paths : Option (List (String × String))
  message : Option String
  error : Option String
deriving DecidableEq, Repr

/-- Per-device loop of take_screenshots: nav models one full iteration
(set_window_size, get, readyState wait, height re-measure, save); its
Except.error is any exception raised during that iteration, aborting the
loop; Except.ok carries the saved file path recorded into paths. -/
def shotLoop (nav : String → Except String String) :
    List (String × Nat × Nat) → Except String (List (String × String))
  | [] => .ok []
  | (device, _, _) :: rest =>
      match nav device with
      | .error e => .error e
      | .ok path => (shotLoop nav rest).map (fun ps => (device, path) :: ps)

/-- ScreenshotManager.take_screenshots. createDriver models
webdriver.Chrome(options), which may itself raise (then no session exists
and nothing is torn down); once created, the inner finally guarantees
driver.quit() on both the success and the exception path. On success the
returned dictionary maps every device profile to its file path; on any
exception the outer handler returns a failed dictionary with the error
message and an empty paths map. -/
def take_screenshots (createDriver : Except String Unit)
    (nav : String → Except String String) : ScreenshotsDict × List ShotEvent :=
  match createDriver with
  | .error e => (⟨"failed", some [], none, some e⟩, [])
  | .ok _ =>
      match shotLoop nav RESOLUTIONS with
      | .ok ps =>
          (⟨"success", some ps,
            some ("Successfully captured " ++ toString ps.length ++ " screenshots"), none⟩,
           [.createDriver, .quitDriver])
      | .error e => (⟨"failed", some [], none, some e⟩, [.createDriver, .quitDriver])

/-! ### Extraction coordinator: scrape_url (lines 372-545) -/

/-- Outcome of the main page GET followed by raise_for_status, split
exactly as the three except clauses split it: requests Timeout,
requests ConnectionError, any other RequestException (including the
HTTPError from raise_for_status), or a successful response with its text,
byte length, status code and content-type header. -/
inductive FetchResult where
  | timeoutExc
  | connectionExc (msg : String)
  | requestExc (msg : String)
  | ok (text : String) (contentLength : Nat) (statusCode : Nat) (contentType : Option String)

/-- Status dictionary inside a returned page record: the success flag and
whichever of the message and error keys the branch populates. -/
structure FetchStatusDict where
  success : Bool
  message : Option String
  error : Option String
deriving DecidableEq, Repr

structure Metadata where
  title : Option String
  description : Option String
  robots : Option String
  keywords : Option String
  author : Option String
  language : Option String
  canonical : Option String
  hreflang : List (String × String)
  viewport : Option String
deriving DecidableEq, Repr

structure Content where
  full_html : String
  clean_text : String
  word_count : Nat
deriving DecidableEq, Repr

structure Technical where
  load_time : Rat
  page_size : Nat
  status_code : Nat
  content_type : Option String
  scripts : List String
  stylesheets : List String
deriving DecidableEq, Repr

/-- Value of the structured_data key of a successful page record:
asdict(structured_data) carries all six sub-fields, while the fallback
for a None extraction result is a bare empty dictionary with no
sub-fields at all. -/
inductive StructuredDataField where
  | full (sd : StructuredData)
  | emptyDict
deriving DecidableEq, Repr

/-- Analysis dictionary: the default raw_analysis note, or the
analyze_content result carrying either an analysis or an error key. -/
structure AnalysisDict where
  raw_analysis : Option String
  analysisVal : Option String
  error : Option String
deriving DecidableEq, Repr

/-- Returned page record of scrape_url. A field holding none models a
key that the returning branch leaves out of the Python dictionary
entirely; some models a present key. -/
structure PageData where
  url : String
  scrape_timestamp : Option String
  metadata : Option Metadata
  content : Option Content
  headings : Option (List HeadingData)
  images : Option (List ImageData)
  links : Option (List LinkData)
  structured_data : Option StructuredDataField
  technical : Option Technical
  status : FetchStatusDict
  screenshots : Option ScreenshotsDict
  analysis : Option AnalysisDict
  error : Option String
deriving DecidableEq, Repr

/-- Parse-tree oracle for BeautifulSoup(response.text): the well-known
lookups scrape_url performs on the soup, in document order where a list
is returned. titleText is soup.title.string before the strip call. -/
structure ParsedDoc where
  titleText : Option String
  description : Option String
  robotsMeta : Option String
  keywords : Option String
  author : Option String
  language : Option String
  canonical : Option String
  hreflang : List (String × String)
  viewport : Option String
  headingTags : List (Nat × String)
  imgTags : List ImgTag
  aTags : List ATag
  paragraphs : List String
  scripts : List String
  stylesheets : List String

/-- Environment of one scrape_url call: the library oracles and the
outcomes of every external interaction it may perform. -/
structure ScrapeEnv where
  urls : UrlLib
  canFetch : String → String → Bool
  robotsResult : RobotsFetchResult
  shotCreate : Except String Unit
  shotNav : String → Except String String
  fetchResult : FetchResult
  doc : ParsedDoc
  extructRun : String → String → Except String (ExtructOut × List (String × String))
  imageFetch : String → ImgFetchOutcome
  headResult : String → Except String Nat
  timestampStr : String
  elapsed : Rat
  clientAvailable : Bool
  analysisResult : AnalysisDict

/-- Page record returned by the three fetch-failure except clauses: only
the url, status and error keys are present. -/
def fetchFailurePage (url kind msg : String) : PageData :=
  ⟨url, none, none, none, none, none, none, none, none,
   ⟨false, none, some kind⟩, none, none, some msg⟩

/-- EnhancedWebScraper.scrape_url. Stage order as in the source: robots
check (immediate denial return), rate-limit sleeps, screenshots (or the
disabled dictionary), main page fetch with the three terminal failure
returns, then parsing and assembly of the full page record. The
ThreadPoolExecutor fan-outs over img and a tags are modelled in
submission order, which is the order the source reads results back from
its futures lists; per-entry None results are filtered out by the
comprehension. -/
def scrape_url (env : ScrapeEnv) (url : String) (takeShots : Bool) : PageData × List Event :=
  let robots := respect_robots_txt env.urls env.canFetch url env.robotsResult
  if !robots.fst then
    (⟨url, none, none, none, none, none, none, none, none,
      ⟨false, none, some "Access denied by robots.txt"⟩, none, none,
      some "Access denied by robots.txt"⟩,
     robots.snd)
  else
    let screenshots :=
      if takeShots then (take_screenshots env.shotCreate env.shotNav).fst
      else ⟨"disabled", none, some "Screenshots were disabled for this scrape", none⟩
    let evHead := robots.snd ++ [Event.rateWait]
        ++ (if takeShots then [Event.screenshotRun url] else [])
        ++ [Event.net (.pageFetch url (some (15, 45)))]
    match env.fetchResult with
    | .timeoutExc => (fetchFailurePage url "Request timed out" "Request timed out", evHead)
    | .connectionExc msg => (fetchFailurePage url "Connection error" msg, evHead)
    | .requestExc msg => (fetchFailurePage url "Request failed" msg, evHead)
    | .ok text contentLen statusCode contentType =>
        let doc := env.doc
        let metadata : Metadata :=
          ⟨doc.titleText.map pyStrip, doc.description, doc.robotsMeta, doc.keywords,
           doc.author, doc.language, doc.canonical, doc.hreflang, doc.viewport⟩
        let headings := extract_headings doc.headingTags
        let imageRuns := doc.imgTags.map (fun t => get_image_data env.urls env.imageFetch t url)
        let images := (imageRuns.map Prod.fst).reduceOption
        let linkRuns := doc.aTags.map (fun t => get_link_data env.urls env.headResult t url)
        let links := (linkRuns.map Prod.fst).reduceOption
        let sdField :=
          match get_structured_data env.extructRun text url with
          | some sd => StructuredDataField.full sd
          | none => StructuredDataField.emptyDict
        let technical : Technical :=
          ⟨env.elapsed, contentLen, statusCode, contentType, doc.scripts, doc.stylesheets⟩
        let analysis :=
          if env.clientAvailable then env.analysisResult
          else ⟨some "Content analysis not available. OpenAI client not initialized.",
                none, none⟩
        (⟨url, some env.timestampStr, some metadata,
          some ⟨text, String.intercalate " " doc.paragraphs, wordCount text⟩,
          some headings, some images, some links, some sdField, some technical,
          ⟨true, some "Successfully scraped", none⟩, some screenshots, some analysis, none⟩,
         evHead ++ [Event.parseHtml]
           ++ (imageRuns.map Prod.snd).flatten ++ (linkRuns.map Prod.snd).flatten)

/-- Whether the fetch outcome is one of the three terminal failures. -/
def FetchResult.failed : FetchResult → Bool
  | .ok _ _ _ _ => false
  | _ => true

/-- Failure-kind string written into the status error key by the except
clause handling the outcome. -/
def FetchResult.errorKindStr : FetchResult → Option String
  | .timeoutExc => some "Request timed out"
  | .connectionExc _ => some "Connection error"
  | .requestExc _ => some "Request failed"
  | .ok _ _ _ _ => none

/-- Message written into the top-level error key by the except clause
handling the outcome: the fixed text for a timeout, str(e) otherwise. -/
def FetchResult.errorMsgStr : FetchResult → Option String
  | .timeoutExc => some "Request timed out"
  | .connectionExc m => some m
  | .requestExc m => some m
  | .ok _ _ _ _ => none

/-! ### Concrete fixtures used by witnesses and counterexamples -/

/-- Simple urllib oracle: joins by concatenation, one shared host. -/
def U0 : UrlLib := ⟨fun base h => base ++ h, fun _ => "example.com", fun _ => "http"⟩

/-- Parse oracle for a page with nothing on it. -/
def emptyDoc : ParsedDoc :=
  ⟨none, none, none, none, none, none, none, [], none, [], [], [], [], [], []⟩

/-- Screenshot navigation oracle where every device capture succeeds. -/
def navOk : String → Except String String := fun d => .ok (d ++ ".png")

def noAnalysis : AnalysisDict := ⟨none, none, none⟩

/-- Environment whose main page fetch times out (robots.txt returns 404,
so the gate fails open). -/
def envTimeout : ScrapeEnv :=
  ⟨U0, fun _ _ => true, .response 404 "", .ok (), navOk, .timeoutExc, emptyDoc,
   fun _ _ => .error "boom", fun _ => .excRaised "x", fun _ => .error "x",
   "2024-01-01T00:00:00", 0, false, noAnalysis⟩

/-- Environment whose robots.txt comes back 200 and disallows the URL. -/
def envDeny : ScrapeEnv :=
  ⟨U0, fun _ _ => false, .response 200 "Disallow everything", .ok (), navOk, .timeoutExc,
   emptyDoc, fun _ _ => .error "boom", fun _ => .excRaised "x", fun _ => .error "x",
   "2024-01-01T00:00:00", 0, false, noAnalysis⟩

/-- Environment with a successful fetch whose structured-data extraction
raises. -/
def envSDFail : ScrapeEnv :=
  ⟨U0, fun _ _ => true, .response 404 "", .ok (), navOk,
   .ok "<html><body>hello</body></html>" 31 200 (some "text/html"), emptyDoc,
   fun _ _ => .error "parse failure", fun _ => .excRaised "x", fun _ => .error "x",
   "2024-01-01T00:00:00", 0, false, noAnalysis⟩

/-! ### Helper lemmas -/

theorem listIsPrefixOf_iff (p s : List Char) :
    p.isPrefixOf s = true ↔ ∃ t, p ++ t = s := by
  induction p generalizing s with
  | nil => simp [List.isPrefixOf]
  | cons a as ih =>
      cases s with
      | nil => simp [List.isPrefixOf]
      | cons b bs =>
          simp only [List.isPrefixOf, Bool.and_eq_true, beq_iff_eq, ih, List.cons_append,
            List.cons.injEq]
          constructor
          · rintro ⟨hab, t, ht⟩; exact ⟨t, hab, ht⟩
          · rintro ⟨t, hab, ht⟩; exact ⟨hab, t, ht⟩

theorem pyStartsWith_mono (s p q : String) (hqp : pyStartsWith p q = true)
    (hps : pyStartsWith s p = true) : pyStartsWith s q = true := by
  unfold pyStartsWith at *
  rcases (listIsPrefixOf_iff q.data p.data).mp hqp with ⟨t1, ht1⟩
  rcases (listIsPrefixOf_iff p.data s.data).mp hps with ⟨t2, ht2⟩
  exact (listIsPrefixOf_iff q.data s.data).mpr
    ⟨t1 ++ t2, by rw [← List.append_assoc, ht1, ht2]⟩

theorem pyStartsWith_head (s p : String) (h : pyStartsWith s p = true)
    (c : Char) (hc : p.data.head? = some c) : s.data.head? = some c := by
  rcases (listIsPrefixOf_iff p.data s.data).mp h with ⟨t, ht⟩
  rw [← ht]
  cases hp : p.data with
  | nil => rw [hp] at hc; simp at hc
  | cons a as => rw [hp] at hc; simp at hc; simp [hp, hc]

theorem data_url_not_javascript (s : String) (h : pyStartsWith s "data:" = true) :
    pyStartsWith s "javascript:" = false := by
  cases hjs : pyStartsWith s "javascript:"
  · rfl
  · have h1 := pyStartsWith_head s "data:" h 'd' (by decide)
    have h2 := pyStartsWith_head s "javascript:" hjs 'j' (by decide)
    rw [h1] at h2
    simp at h2

theorem data_url_ne_empty (s : String) (h : pyStartsWith s "data:" = true) :
    (s == "") = false := by
  cases he : s == ""
  · rfl
  · rw [eq_of_beq he] at h
    exact absurd h (by decide)

theorem robots_events_mem (U : UrlLib) (cf : String → String → Bool) (url : String)
    (res : RobotsFetchResult) (e : Event)
    (he : e ∈ (respect_robots_txt U cf url res).snd) :
    e = Event.net (.robotsFetch (robotsUrlOf U url) (some (5, 10)))
      ∨ e = Event.robotsParse ∨ e = Event.robotsEval := by
  cases res with
  | excRaised m => simp [respect_robots_txt] at he; simp [he]
  | response code body =>
      by_cases h200 : code == 200
      · simp [respect_robots_txt, h200] at he
        tauto
      · simp only [respect_robots_txt] at he
        rw [if_neg h200] at he
        simp at he
        simp [he]

theorem fetch_image_entry_events_mem (f : String → ImgFetchOutcome) (src alt : String)
    (title wAttr hAttr : Option String) (e : Event)
    (he : e ∈ (fetch_image_entry f src alt title wAttr hAttr).snd) :
    e = Event.net (.imageFetch src (some (5, 10))) := by
  cases hf : f src with
  | excRaised m => simp [fetch_image_entry, hf] at he; exact he
  | resp code len decoded =>
      by_cases h200 : code == 200
      · cases decoded with
        | error m => simp [fetch_image_entry, hf, h200] at he; exact he
        | ok img => simp [fetch_image_entry, hf, h200] at he; exact he
      · simp [fetch_image_entry, hf, h200] at he; exact he

theorem image_events_mem (U : UrlLib) (f : String → ImgFetchOutcome) (tag : ImgTag)
    (base : String) (e : Event) (he : e ∈ (get_image_data U f tag base).snd) :
    ∃ u, e = Event.net (.imageFetch u (some (5, 10))) := by
  unfold get_image_data at he
  by_cases h1 : (trackerSubs.any fun t => pyIn t (pyLower tag.src)) = true
  · rw [if_pos h1] at he; simp at he
  rw [if_neg h1] at he
  by_cases h2 : (pyStartsWith tag.src "data:" && !pyStartsWith tag.src "data:image/") = true
  · rw [if_pos h2] at he; simp at he
  rw [if_neg h2] at he
  by_cases h3 : (tag.src == "" || pyStartsWith tag.src "javascript:") = true
  · rw [if_pos h3] at he; simp at he
  rw [if_neg h3] at he
  simp only [] at he
  by_cases h4 : (!(pyStartsWith tag.src "http://" || pyStartsWith tag.src "https://"
      || pyStartsWith tag.src "data:")) = true
  · rw [if_pos h4] at he
    by_cases h5 : pyStartsWith (U.urljoin base tag.src) "data:" = true
    · rw [if_pos h5] at he; simp at he
    · rw [if_neg h5] at he
      exact ⟨_, fetch_image_entry_events_mem _ _ _ _ _ _ _ he⟩
  · rw [if_neg h4] at he
    by_cases h5 : pyStartsWith tag.src "data:" = true
    · rw [if_pos h5] at he; simp at he
    · rw [if_neg h5] at he
      exact ⟨_, fetch_image_entry_events_mem _ _ _ _ _ _ _ he⟩

theorem link_events_mem (U : UrlLib) (hr : String → Except String Nat) (tag : ATag)
    (base : String) (e : Event) (he : e ∈ (get_link_data U hr tag base).snd) :
    ∃ u, e = Event.net (.headFetch u none) := by
  unfold get_link_data at he
  by_cases h1 : (tag.href == "") = true
  · rw [if_pos h1] at he; simp at he
  rw [if_neg h1] at he
  by_cases h2 : (pyStartsWith tag.href "javascript:" || pyStartsWith tag.href "mailto:"
      || pyStartsWith tag.href "tel:") = true
  · rw [if_pos h2] at he; simp at he
  rw [if_neg h2] at he
  simp only [] at he
  by_cases h3 : (U.netloc (U.urljoin base tag.href) == U.netloc base) = true
  · rw [if_pos h3] at he
    simp at he
    exact ⟨_, he⟩
  · rw [if_neg h3] at he
    simp at he

theorem shotLoop_keys (nav : String → Except String String) :
    ∀ (rs : List (String × Nat × Nat)) (ps : List (String × String)),
      shotLoop nav rs = .ok ps → ps.map Prod.fst = rs.map Prod.fst := by
  intro rs
  induction rs with
  | nil => intro ps h; simp [shotLoop] at h; simp [← h]
  | cons r rest ih =>
      intro ps h
      obtain ⟨device, w, hgt⟩ := r
      unfold shotLoop at h
      cases hnav : nav device with
      | error e => rw [hnav] at h; simp at h
      | ok path =>
          rw [hnav] at h
          cases hrest : shotLoop nav rest with
          | error e => rw [hrest] at h; simp [Except.map] at h
          | ok ps' =>
              rw [hrest] at h
              simp [Except.map] at h
              rw [← h]
              simp [ih ps' hrest]

theorem shotLoop_all_ok (nav : String → Except String String) :
    ∀ (rs : List (String × Nat × Nat)),
      (∀ r ∈ rs, ∃ p, nav r.fst = .ok p) → ∃ ps, shotLoop nav rs = .ok ps := by
  intro rs
  induction rs with
  | nil => intro _; exact ⟨[], rfl⟩
  | cons r rest ih =>
      intro h
      obtain ⟨device, w, hgt⟩ := r
      obtain ⟨p, hp⟩ := h (device, w, hgt) (by simp)
      obtain ⟨ps, hps⟩ := ih (fun x hx => h x (by simp [hx]))
      exact ⟨(device, p) :: ps, by unfold shotLoop; rw [hp, hps]; rfl⟩

theorem heading_block_filter (doc : List (Nat × String)) (i l : Nat) :
    ((doc.filter (fun h => h.fst == i)).map
        (fun h => (⟨i, h.snd, wordCount h.snd⟩ : HeadingData))).filter (fun h => h.level == l)
      = if i = l then
          (doc.filter (fun h => h.fst == i)).map
            (fun h => (⟨i, h.snd, wordCount h.snd⟩ : HeadingData))
        else [] := by
  rw [List.filter_map]
  by_cases hil : i = l
  · subst hil
    have hb : ∀ h : Nat × String,
        ((fun hd : HeadingData => hd.level == i) ∘ fun h => (⟨i, h.snd, wordCount h.snd⟩ : HeadingData)) h = true := by
      intro h; simp [Function.comp]
    simp [List.filter_eq_self.mpr, hb]
  · have hb : ∀ h : Nat × String,
        ((fun hd : HeadingData => hd.level == l) ∘ fun h => (⟨i, h.snd, wordCount h.snd⟩ : HeadingData)) h = false := by
      intro h; simp [Function.comp, hil]
    simp [hil, List.filter_eq_nil_iff, hb]

theorem extract_headings_filter_eq (doc : List (Nat × String)) (l : Nat)
    (h1 : 1 ≤ l) (h6 : l ≤ 6) :
    (extract_headings doc).filter (fun h => h.level == l)
      = (doc.filter (fun p => p.fst == l)).map
          (fun p => (⟨l, p.snd, wordCount p.snd⟩ : HeadingData)) := by
  unfold extract_headings
  rw [show List.range' 1 6 = [1, 2, 3, 4, 5, 6] from rfl]
  simp only [List.flatMap_cons, List.flatMap_nil, List.append_nil, List.filter_append,
    heading_block_filter]
  interval_cases l <;> simp

theorem extract_headings_grouped (doc : List (Nat × String)) :
    extract_headings doc
      = (List.range' 1 6).flatMap
          (fun l => (extract_headings doc).filter (fun h => h.level == l)) := by
  conv_rhs => rw [show List.range' 1 6 = [1, 2, 3, 4, 5, 6] from rfl]
  simp only [List.flatMap_cons, List.flatMap_nil, List.append_nil]
  rw [extract_headings_filter_eq doc 1 (by decide) (by decide),
    extract_headings_filter_eq doc 2 (by decide) (by decide),
    extract_headings_filter_eq doc 3 (by decide) (by decide),
    extract_headings_filter_eq doc 4 (by decide) (by decide),
    extract_headings_filter_eq doc 5 (by decide) (by decide),
    extract_headings_filter_eq doc 6 (by decide) (by decide)]
  unfold extract_headings
  rw [show List.range' 1 6 = [1, 2, 3, 4, 5, 6] from rfl]
  simp only [List.flatMap_cons, List.flatMap_nil, List.append_nil]

theorem extract_headings_word_count (doc : List (Nat × String)) (hd : HeadingData)
    (hmem : hd ∈ extract_headings doc) : hd.word_count = wordCount hd.text := by
  unfold extract_headings at hmem
  simp only [List.mem_flatMap, List.mem_map, List.mem_filter] at hmem
  obtain ⟨l, _, p, _, hp⟩ := hmem
  rw [← hp]

/-! ### Claim C2 -/

/-- C2, counterexample: the parser does not emit headings in source
document order. For a document whose headings occur in the order
h2 "A", h1 "B", the emitted sequence of (level, text) pairs is
[(1, "B"), (2, "A")], not the source order. -/
theorem claim_headings_not_source_order_cex :
    ((extract_headings [(2, "A"), (1, "B")]).map (fun h => (h.level, h.text)))
      ≠ [(2, "A"), (1, "B")] := by decide

/-- C2, amended: headings are emitted grouped by level in ascending order
1 through 6 (the output equals the concatenation over levels 1..6 of its
own per-level sublists); within each level 1 ≤ l ≤ 6 the occurrences are
exactly the document-order occurrences of that level, none deduplicated;
and every emitted heading's word_count equals the whitespace-token count
of its own text. -/
theorem claim_headings_grouped_by_level (doc : List (Nat × String)) :
    extract_headings doc
        = (List.range' 1 6).flatMap
            (fun l => (extract_headings doc).filter (fun h => h.level == l))
    ∧ (∀ l, 1 ≤ l → l ≤ 6 →
        (extract_headings doc).filter (fun h => h.level == l)
          = (doc.filter (fun p => p.fst == l)).map
              (fun p => (⟨l, p.snd, wordCount p.snd⟩ : HeadingData)))
    ∧ (∀ hd ∈ extract_headings doc, hd.word_count = wordCount hd.text) :=
  ⟨extract_headings_grouped doc,
   fun l hl1 hl6 => extract_headings_filter_eq doc l hl1 hl6,
   fun hd hmem => extract_headings_word_count doc hd hmem⟩

/-- C2, witness: the amended theorem evaluated on the two-heading
document used in the counterexample. -/
theorem claim_headings_grouped_by_level_witness :
    (extract_headings [(2, "A"), (1, "B")]).filter (fun h => h.level == 2)
        = [⟨2, "A", 1⟩]
    ∧ (⟨1, "B", 1⟩ : HeadingData).word_count = wordCount "B" := by
  constructor
  · rw [(claim_headings_grouped_by_level [(2, "A"), (1, "B")]).2.1 2 (by decide) (by decide)]
    decide
  · exact (claim_headings_grouped_by_level [(2, "A"), (1, "B")]).2.2 ⟨1, "B", 1⟩ (by decide)

/-! ### Claim C4 -/

/-- C4, confirmed: whenever the robots.txt retrieval raises or returns a
non-200 status, respect_robots_txt answers allowed = true without
parsing directives or evaluating can_fetch; only a 200 response parses
the directives and evaluates can_fetch for the wildcard agent against
the candidate URL, and then the answer is exactly that evaluation. -/
theorem claim_robots_fail_open (U : UrlLib) (cf : String → String → Bool)
    (url : String) (res : RobotsFetchResult) :
    ((∀ body, res ≠ .response 200 body) →
        (respect_robots_txt U cf url res).fst = true
        ∧ Event.robotsParse ∉ (respect_robots_txt U cf url res).snd
        ∧ Event.robotsEval ∉ (respect_robots_txt U cf url res).snd)
    ∧ (∀ body, res = .response 200 body →
        (respect_robots_txt U cf url res).fst = cf body url
        ∧ Event.robotsParse ∈ (respect_robots_txt U cf url res).snd
        ∧ Event.robotsEval ∈ (respect_robots_txt U cf url res).snd) := by
  constructor
  · intro hne
    cases res with
    | excRaised m => simp [respect_robots_txt]
    | response code body =>
        have hcode : ¬(code == 200) = true := by
          intro hc
          have : code = 200 := by simpa using hc
          exact hne body (by rw [this])
        simp only [respect_robots_txt]
        rw [if_neg hcode]
        simp
  · intro body hres
    subst hres
    simp [respect_robots_txt]

/-- C4, witness: a raised robots fetch fails open, and a 200 response
consults the parsed directives (here denying the URL). -/
theorem claim_robots_fail_open_witness :
    (respect_robots_txt U0 (fun _ _ => false) "http://example.com/a" (.excRaised "t")).fst = true
    ∧ (respect_robots_txt U0 (fun _ _ => false) "http://example.com/a"
        (.response 200 "robots body")).fst = false := by
  constructor
  · exact ((claim_robots_fail_open U0 (fun _ _ => false) "http://example.com/a"
      (.excRaised "t")).1 (fun body h => RobotsFetchResult.noConfusion h)).1
  · exact ((claim_robots_fail_open U0 (fun _ _ => false) "http://example.com/a"
      (.response 200 "robots body")).2 "robots body" rfl).1

/-! ### Claim C8 -/

/-- C8, counterexample: with no prior request timestamp for the domain
(last = none), minInterval = 5, now = 100 and a drawn jitter of 2, the
call still sleeps for 2 seconds in total — the jitter delay is applied
even though no prior request timestamp exists, so the delay is not
applied only when a prior timestamp exists. -/
theorem claim_jitter_without_prior_timestamp_cex :
    (respect_rate_limits none 5 100 2).intervalSleep
        + (respect_rate_limits none 5 100 2).jitterSleep = 2
    ∧ ¬((respect_rate_limits none 5 100 2).intervalSleep
        + (respect_rate_limits none 5 100 2).jitterSleep = 0) := by
  constructor <;> norm_num [respect_rate_limits]

/-- C8, amended: the minimum-interval wait is conditional on a prior
request timestamp for the domain (with none recorded, no interval sleep
happens), and whenever a prior timestamp t exists, the recorded time of
the new request lies at least minInterval after t; the jitter sleep,
drawn uniformly from 2 to 7, is applied unconditionally on every call,
prior timestamp or not, so the total delay is always at least 2. -/
theorem claim_rate_limit_interval_and_jitter (last : Option Rat)
    (minInterval now jitter : Rat) (hj2 : 2 ≤ jitter) (hj7 : jitter ≤ 7) :
    (respect_rate_limits last minInterval now jitter).jitterSleep = jitter
    ∧ (last = none → (respect_rate_limits last minInterval now jitter).intervalSleep = 0)
    ∧ (∀ t, last = some t →
        minInterval ≤ (respect_rate_limits last minInterval now jitter).newLast - t)
    ∧ 2 ≤ (respect_rate_limits last minInterval now jitter).intervalSleep
        + (respect_rate_limits last minInterval now jitter).jitterSleep := by
  refine ⟨rfl, ?_, ?_, ?_⟩
  · intro h; subst h; rfl
  · intro t h
    subst h
    simp only [respect_rate_limits]
    by_cases hlt : now - t < minInterval
    · rw [if_pos hlt]; linarith
    · rw [if_neg hlt]; linarith
  · cases last with
    | none => simp only [respect_rate_limits]; linarith
    | some t =>
        simp only [respect_rate_limits]
        by_cases hlt : now - t < minInterval
        · rw [if_pos hlt]; linarith
        · rw [if_neg hlt]; linarith

/-- C8, witness: a prior timestamp of 0, minInterval 5, entry time 3 and
jitter 2 yield a recorded separation of at least 5 seconds, with the
jitter sleep equal to the drawn 2. -/
theorem claim_rate_limit_interval_and_jitter_witness :
    (respect_rate_limits (some 0) 5 3 2).jitterSleep = 2
    ∧ (5 : Rat) ≤ (respect_rate_limits (some 0) 5 3 2).newLast - 0 := by
  constructor
  · exact (claim_rate_limit_interval_and_jitter (some 0) 5 3 2 (by norm_num) (by norm_num)).1
  · exact (claim_rate_limit_interval_and_jitter (some 0) 5 3 2 (by norm_num)
      (by norm_num)).2.2.1 0 rfl

/-! ### Claim C10 -/

/-- C10, confirmed: get_image_data silently drops (returns no entry and
issues no network call for) every img tag whose src contains, after
lowering, one of the substrings facebook.com/tr, pixel, tracking,
analytics, and every data URL that is not an image data URL — for every
fetch oracle, so even when the resource would be fetchable and
decodable. -/
theorem claim_tracker_and_nonimage_dropped (U : UrlLib)
    (f : String → ImgFetchOutcome) (tag : ImgTag) (base : String) :
    ((trackerSubs.any fun t => pyIn t (pyLower tag.src)) = true →
        get_image_data U f tag base = (none, []))
    ∧ (pyStartsWith tag.src "data:" = true → pyStartsWith tag.src "data:image/" = false →
        get_image_data U f tag base = (none, [])) := by
  constructor
  · intro h
    unfold get_image_data
    rw [if_pos h]
  · intro hd hni
    unfold get_image_data
    by_cases h1 : (trackerSubs.any fun t => pyIn t (pyLower tag.src)) = true
    · rw [if_pos h1]
    · rw [if_neg h1, if_pos (by rw [hd, hni]; rfl)]

/-- C10, witness: a tracking-pixel URL and a non-image data URL are both
dropped without any network call, under a fetch oracle that would
succeed. -/
theorem claim_tracker_and_nonimage_dropped_witness :
    get_image_data U0 (fun _ => .resp 200 10 (.ok ⟨8, 8, some "GIF"⟩))
        ⟨"https://x.com/Pixel.gif", "", none, none, none⟩ "http://example.com" = (none, [])
    ∧ get_image_data U0 (fun _ => .resp 200 10 (.ok ⟨8, 8, some "GIF"⟩))
        ⟨"data:text/plain;base64,QUFB", "", none, none, none⟩ "http://example.com"
        = (none, []) := by
  constructor
  · exact (claim_tracker_and_nonimage_dropped U0 _ _ _).1 (by decide)
  · exact (claim_tracker_and_nonimage_dropped U0 _ _ _).2 (by decide) (by decide)

/-! ### Claim C5 -/

/-- C5, counterexample: an img tag whose src is an inline SVG image data
URL yields no ImageRef at all — get_image_data returns None and issues no
network call — rather than an entry with is_data_url = true carrying a
byte size and viewBox-derived dimensions. -/
theorem claim_data_url_svg_no_entry_cex :
    get_image_data U0 (fun _ => .excRaised "never called")
        ⟨"data:image/svg+xml;base64,QUFB", "logo", none, none, none⟩ "http://example.com"
      = (none, []) := by decide

/-- C5, amended: for every img tag whose src is an inline image data URL,
get_image_data makes no network call but also produces no entry: the
ImageData construction for data URLs omits the required file_size and
format dataclass arguments, so it raises TypeError, which the enclosing
handler absorbs into a None result; no byte size is reported and no
viewBox parsing of SVG data URLs exists. -/
theorem claim_data_url_images_dropped (U : UrlLib) (f : String → ImgFetchOutcome)
    (tag : ImgTag) (base : String) (h : pyStartsWith tag.src "data:image/" = true) :
    get_image_data U f tag base = (none, []) := by
  have hdata : pyStartsWith tag.src "data:" = true :=
    pyStartsWith_mono tag.src "data:image/" "data:" (by decide) h
  have hjs := data_url_not_javascript tag.src hdata
  have hne := data_url_ne_empty tag.src hdata
  unfold get_image_data
  by_cases h1 : (trackerSubs.any fun t => pyIn t (pyLower tag.src)) = true
  · rw [if_pos h1]
  rw [if_neg h1]
  rw [if_neg (by rw [hdata, h]; simp)]
  rw [if_neg (by rw [hne, hjs]; simp)]
  simp only []
  have hrel : (!(pyStartsWith tag.src "http://" || pyStartsWith tag.src "https://"
      || pyStartsWith tag.src "data:")) = false := by rw [hdata]; simp
  rw [hrel, if_neg (show ¬(false = true) by simp), if_pos hdata]

/-- C5, witness: the amended theorem evaluated on a PNG data URL under a
fetch oracle that would succeed if consulted. -/
theorem claim_data_url_images_dropped_witness :
    get_image_data U0 (fun _ => .resp 200 3 (.ok ⟨1, 1, some "PNG"⟩))
        ⟨"data:image/png;base64,QUFC", "icon", none, none, none⟩ "http://example.com"
      = (none, []) :=
  claim_data_url_images_dropped U0 _ _ _ (by decide)

/-! ### Claim C9 -/

/-- C9, confirmed: when the driver starts and every per-device capture
succeeds, take_screenshots reports status success with exactly one path
entry per configured device profile, in the profiles' configured order;
any exception in the capture loop or at driver creation yields status
failed carrying the error message; and whenever a driver session was
created, driver.quit() runs on the exit path, success or failure. -/
theorem claim_take_screenshots_contract (create : Except String Unit)
    (nav : String → Except String String) :
    (create = .ok () → (∀ r ∈ RESOLUTIONS, ∃ p, nav r.fst = .ok p) →
        (take_screenshots create nav).fst.status = "success"
        ∧ ∃ ps, (take_screenshots create nav).fst.paths = some ps
            ∧ ps.map Prod.fst = RESOLUTIONS.map Prod.fst)
    ∧ (∀ e, create = .ok () → shotLoop nav RESOLUTIONS = .error e →
        (take_screenshots create nav).fst.status = "failed"
        ∧ (take_screenshots create nav).fst.error = some e)
    ∧ (∀ e, create = .error e →
        (take_screenshots create nav).fst.status = "failed"
        ∧ (take_screenshots create nav).fst.error = some e)
    ∧ (create = .ok () → ShotEvent.quitDriver ∈ (take_screenshots create nav).snd) := by
  refine ⟨?_, ?_, ?_, ?_⟩
  · intro hc hall
    subst hc
    obtain ⟨ps, hps⟩ := shotLoop_all_ok nav RESOLUTIONS hall
    refine ⟨by simp [take_screenshots, hps], ps, by simp [take_screenshots, hps],
      shotLoop_keys nav RESOLUTIONS ps hps⟩
  · intro e hc herr
    subst hc
    exact ⟨by simp [take_screenshots, herr], by simp [take_screenshots, herr]⟩
  · intro e hc
    subst hc
    exact ⟨rfl, rfl⟩
  · intro hc
    subst hc
    unfold take_screenshots
    cases h : shotLoop nav RESOLUTIONS <;> simp

/-- C9, witness: with a working driver and all-succeeding navigations,
the result is a success and the session is torn down. -/
theorem claim_take_screenshots_contract_witness :
    (take_screenshots (.ok ()) navOk).fst.status = "success"
    ∧ ShotEvent.quitDriver ∈ (take_screenshots (.ok ()) navOk).snd := by
  constructor
  · exact ((claim_take_screenshots_contract (.ok ()) navOk).1 rfl
      (fun r hr => ⟨r.fst ++ ".png", rfl⟩)).1
  · exact (claim_take_screenshots_contract (.ok ()) navOk).2.2.2 rfl

/-! ### Claim C3 -/

theorem robots_events_only_robots (U : UrlLib) (cf : String → String → Bool)
    (url : String) (res : RobotsFetchResult) :
    (∀ u t, Event.net (.pageFetch u t) ∉ (respect_robots_txt U cf url res).snd)
    ∧ (∀ u t, Event.net (.imageFetch u t) ∉ (respect_robots_txt U cf url res).snd)
    ∧ (∀ u t, Event.net (.headFetch u t) ∉ (respect_robots_txt U cf url res).snd)
    ∧ (∀ u, Event.screenshotRun u ∉ (respect_robots_txt U cf url res).snd)
    ∧ Event.parseHtml ∉ (respect_robots_txt U cf url res).snd
    ∧ Event.rateWait ∉ (respect_robots_txt U cf url res).snd := by
  refine ⟨fun u t hmem => ?_, fun u t hmem => ?_, fun u t hmem => ?_,
    fun u hmem => ?_, fun hmem => ?_, fun hmem => ?_⟩ <;>
    rcases robots_events_mem _ _ _ _ _ hmem with hh | hh | hh <;> simp at hh

/-- C3, confirmed: when robots.txt disallows the URL, scrape_url returns
immediately: the document carries success = false with the robots-denial
error, and the whole event trace is that of the robots check alone — no
page fetch, no screenshot run, no parsing, no rate-limit wait, and no
sub-resource calls occur. -/
theorem claim_robots_denied_short_circuit (env : ScrapeEnv) (url : String) (ts : Bool)
    (h : (respect_robots_txt env.urls env.canFetch url env.robotsResult).fst = false) :
    (scrape_url env url ts).fst.status.success = false
    ∧ (scrape_url env url ts).fst.status.error = some "Access denied by robots.txt"
    ∧ (scrape_url env url ts).fst.error = some "Access denied by robots.txt"
    ∧ (scrape_url env url ts).snd
        = (respect_robots_txt env.urls env.canFetch url env.robotsResult).snd
    ∧ (∀ u t, Event.net (.pageFetch u t) ∉ (scrape_url env url ts).snd)
    ∧ (∀ u, Event.screenshotRun u ∉ (scrape_url env url ts).snd)
    ∧ Event.parseHtml ∉ (scrape_url env url ts).snd
    ∧ Event.rateWait ∉ (scrape_url env url ts).snd
    ∧ (∀ u t, Event.net (.imageFetch u t) ∉ (scrape_url env url ts).snd)
    ∧ (∀ u t, Event.net (.headFetch u t) ∉ (scrape_url env url ts).snd) := by
  have hrest := robots_events_only_robots env.urls env.canFetch url env.robotsResult
  have hred : scrape_url env url ts
      = (⟨url, none, none, none, none, none, none, none, none,
          ⟨false, none, some "Access denied by robots.txt"⟩, none, none,
          some "Access denied by robots.txt"⟩,
         (respect_robots_txt env.urls env.canFetch url env.robotsResult).snd) := by
    simp [scrape_url, h]
  rw [hred]
  exact ⟨rfl, rfl, rfl, rfl, hrest.1, hrest.2.2.2.1, hrest.2.2.2.2.1,
    hrest.2.2.2.2.2, hrest.2.1, hrest.2.2.1⟩

/-- C3, witness: a 200 robots.txt that denies the URL produces the denial
document with a trace consisting of the robots steps only. -/
theorem claim_robots_denied_short_circuit_witness :
    (scrape_url envDeny "http://example.com/a" true).fst.status.success = false
    ∧ (scrape_url envDeny "http://example.com/a" true).fst.status.error
        = some "Access denied by robots.txt"
    ∧ (scrape_url envDeny "http://example.com/a" true).snd
        = (respect_robots_txt envDeny.urls envDeny.canFetch "http://example.com/a"
            envDeny.robotsResult).snd := by
  have h := claim_robots_denied_short_circuit envDeny "http://example.com/a" true (by decide)
  exact ⟨h.1, h.2.1, h.2.2.2.1⟩

/-! ### Claim C1 -/

/-- C1, counterexample: when the main page fetch times out, the returned
document does not carry the extraction fields in an empty or default
state — the metadata, content, headings, images, links, structured_data
and technical keys are absent from the returned dictionary altogether. -/
theorem claim_fetch_failure_fields_absent_cex :
    (scrape_url envTimeout "http://example.com/a" true).fst.status.success = false
    ∧ (scrape_url envTimeout "http://example.com/a" true).fst.status.error
        = some "Request timed out"
    ∧ (scrape_url envTimeout "http://example.com/a" true).fst.metadata = none
    ∧ (scrape_url envTimeout "http://example.com/a" true).fst.content = none
    ∧ (scrape_url envTimeout "http://example.com/a" true).fst.headings = none
    ∧ (scrape_url envTimeout "http://example.com/a" true).fst.images = none
    ∧ (scrape_url envTimeout "http://example.com/a" true).fst.links = none
    ∧ (scrape_url envTimeout "http://example.com/a" true).fst.structured_data = none
    ∧ (scrape_url envTimeout "http://example.com/a" true).fst.technical = none := by
  decide

/-- C1, amended: on every terminal page-fetch failure (with robots
allowing), the returned document has success = false with the status
error naming the failure kind — Request timed out, Connection error, or
Request failed, distinguishing the three — and the top-level error
message of the exception; every extraction key (metadata, content,
headings, images, links, structured_data, technical), the screenshots
key and the timestamp are absent from the returned dictionary (not
present in an empty state); and no parsing or sub-resource call happens
after the failed fetch. -/
theorem claim_fetch_failure_minimal_document (env : ScrapeEnv) (url : String) (ts : Bool)
    (hallow : (respect_robots_txt env.urls env.canFetch url env.robotsResult).fst = true)
    (hfail : env.fetchResult.failed = true) :
    (scrape_url env url ts).fst.status.success = false
    ∧ (scrape_url env url ts).fst.status.error = env.fetchResult.errorKindStr
    ∧ (scrape_url env url ts).fst.error = env.fetchResult.errorMsgStr
    ∧ (scrape_url env url ts).fst.metadata = none
    ∧ (scrape_url env url ts).fst.content = none
    ∧ (scrape_url env url ts).fst.headings = none
    ∧ (scrape_url env url ts).fst.images = none
    ∧ (scrape_url env url ts).fst.links = none
    ∧ (scrape_url env url ts).fst.structured_data = none
    ∧ (scrape_url env url ts).fst.technical = none
    ∧ (scrape_url env url ts).fst.screenshots = none
    ∧ (scrape_url env url ts).fst.scrape_timestamp = none
    ∧ Event.parseHtml ∉ (scrape_url env url ts).snd
    ∧ (∀ u t, Event.net (.imageFetch u t) ∉ (scrape_url env url ts).snd)
    ∧ (∀ u t, Event.net (.headFetch u t) ∉ (scrape_url env url ts).snd) := by
  have hrest := robots_events_only_robots env.urls env.canFetch url env.robotsResult
  have hkind : ∀ kind msg,
      (scrape_url env url ts)
          = (fetchFailurePage url kind msg,
             (respect_robots_txt env.urls env.canFetch url env.robotsResult).snd
               ++ [Event.rateWait]
               ++ (if ts then [Event.screenshotRun url] else [])
               ++ [Event.net (.pageFetch url (some (15, 45)))]) →
      (scrape_url env url ts).fst.status.success = false
      ∧ (scrape_url env url ts).fst.status.error = some kind
      ∧ (scrape_url env url ts).fst.error = some msg
      ∧ (scrape_url env url ts).fst.metadata = none
      ∧ (scrape_url env url ts).fst.content = none
      ∧ (scrape_url env url ts).fst.headings = none
      ∧ (scrape_url env url ts).fst.images = none
      ∧ (scrape_url env url ts).fst.links = none
      ∧ (scrape_url env url ts).fst.structured_data = none
      ∧ (scrape_url env url ts).fst.technical = none
      ∧ (scrape_url env url ts).fst.screenshots = none
      ∧ (scrape_url env url ts).fst.scrape_timestamp = none
      ∧ Event.parseHtml ∉ (scrape_url env url ts).snd
      ∧ (∀ u t, Event.net (.imageFetch u t) ∉ (scrape_url env url ts).snd)
      ∧ (∀ u t, Event.net (.headFetch u t) ∉ (scrape_url env url ts).snd) := by
    intro kind msg hred
    rw [hred]
    refine ⟨rfl, rfl, rfl, rfl, rfl, rfl, rfl, rfl, rfl, rfl, rfl, rfl, ?_, ?_, ?_⟩
    · intro hmem
      cases ts <;> simp [List.mem_append] at hmem <;>
        exact hrest.2.2.2.2.1 hmem
    · intro u t hmem
      cases ts <;> simp [List.mem_append] at hmem <;>
        exact hrest.2.1 u t hmem
    · intro u t hmem
      cases ts <;> simp [List.mem_append] at hmem <;>
        exact hrest.2.2.1 u t hmem
  cases hres : env.fetchResult with
  | ok t l c ct => rw [hres] at hfail; simp [FetchResult.failed] at hfail
  | timeoutExc =>
      exact hkind "Request timed out" "Request timed out" (by simp [scrape_url, hallow, hres])
  | connectionExc m =>
      exact hkind "Connection error" m (by simp [scrape_url, hallow, hres])
  | requestExc m =>
      exact hkind "Request failed" m (by simp [scrape_url, hallow, hres])

/-- C1, witness: the amended theorem evaluated on the timeout
environment. -/
theorem claim_fetch_failure_minimal_document_witness :
    (scrape_url envTimeout "http://example.com/b" true).fst.status.error
        = envTimeout.fetchResult.errorKindStr
    ∧ (scrape_url envTimeout "http://example.com/b" true).fst.metadata = none
    ∧ Event.parseHtml ∉ (scrape_url envTimeout "http://example.com/b" true).snd := by
  have h := claim_fetch_failure_minimal_document envTimeout "http://example.com/b" true
    (by decide) (by decide)
  exact ⟨h.2.1, h.2.2.2.1, h.2.2.2.2.2.2.2.2.2.2.2.2.1⟩

/-! ### Claim C6 -/

/-- C6, counterexample: a successfully fetched page whose structured-data
extraction raises ends up with structured_data equal to a bare empty
dictionary: the six sub-field containers (schema_org, open_graph,
twitter_cards, microdata, rdfa, json_ld) are all absent, not present as
empty containers. -/
theorem claim_structured_failure_drops_subfields_cex :
    (scrape_url envSDFail "http://example.com/a" false).fst.status.success = true
    ∧ (scrape_url envSDFail "http://example.com/a" false).fst.structured_data
        = some StructuredDataField.emptyDict := by
  decide

/-- C6, amended: on a successfully fetched document, when structured-data
extraction succeeds the structured_data value carries all six sub-field
containers (schema_org and json_ld both holding the json-ld list,
open_graph, twitter_cards, microdata and rdfa as produced, empty when
nothing was found); when the extraction raises, no error propagates —
the call still returns a success document — but structured_data degrades
to a bare empty dictionary with no sub-fields at all. -/
theorem claim_structured_data_degrades (env : ScrapeEnv) (url : String) (ts : Bool)
    (text : String) (len code : Nat) (ctype : Option String)
    (hallow : (respect_robots_txt env.urls env.canFetch url env.robotsResult).fst = true)
    (hfetch : env.fetchResult = .ok text len code ctype) :
    (scrape_url env url ts).fst.status.success = true
    ∧ (∀ out tw, env.extructRun text url = .ok (out, tw) →
        (scrape_url env url ts).fst.structured_data
          = some (.full ⟨out.json_ld, out.opengraph, tw, out.microdata, out.rdfa,
              out.json_ld⟩))
    ∧ (∀ e, env.extructRun text url = .error e →
        (scrape_url env url ts).fst.structured_data = some .emptyDict) := by
  refine ⟨?_, ?_, ?_⟩
  · simp [scrape_url, hallow, hfetch]
  · intro out tw hex
    simp [scrape_url, hallow, hfetch, get_structured_data, hex]
  · intro e hex
    simp [scrape_url, hallow, hfetch, get_structured_data, hex]

/-- C6, witness: the amended theorem evaluated on the environment whose
extraction raises. -/
theorem claim_structured_data_degrades_witness :
    (scrape_url envSDFail "http://example.com/w" false).fst.status.success = true
    ∧ (scrape_url envSDFail "http://example.com/w" false).fst.structured_data
        = some StructuredDataField.emptyDict := by
  have h := claim_structured_data_degrades envSDFail "http://example.com/w" false
    "<html><body>hello</body></html>" 31 200 (some "text/html") (by decide) rfl
  exact ⟨h.1, h.2.2 "parse failure" rfl⟩

/-! ### Claim C7 -/

/-- C7, counterexample: the internal-link liveness check issues its HEAD
request with no timeout argument at all — the emitted network call
carries none where the claim requires the explicit (5, 10) bounds. -/
theorem claim_head_check_missing_timeout_cex :
    (get_link_data U0 (fun _ => .ok 200) ⟨"/b", "B", []⟩ "http://example.com").snd
      = [Event.net (.headFetch "http://example.com/b" none)] := by decide

/-- C7, amended: every network call emitted during scrape_url carries
exactly the timeout its call site passes in the source: (5, 10) for the
robots.txt fetch and for image fetches, (15, 45) for the main page
fetch, and no timeout at all for the internal-link HEAD check (whose
call site passes no timeout argument; the session.timeout attribute is
not consulted by the requests library). -/
theorem claim_net_call_timeouts (env : ScrapeEnv) (url : String) (ts : Bool) (c : NetCall)
    (hc : Event.net c ∈ (scrape_url env url ts).snd) :
    c.timeoutOf = c.sourceTimeoutOf := by
  have hrcase : Event.net c ∈
      (respect_robots_txt env.urls env.canFetch url env.robotsResult).snd →
      c.timeoutOf = c.sourceTimeoutOf := by
    intro hmem
    rcases robots_events_mem _ _ _ _ _ hmem with hh | hh | hh <;> simp at hh
    rw [hh]; rfl
  by_cases hra : (respect_robots_txt env.urls env.canFetch url env.robotsResult).fst = true
  · cases hres : env.fetchResult with
    | timeoutExc =>
        rw [show (scrape_url env url ts).snd
            = (respect_robots_txt env.urls env.canFetch url env.robotsResult).snd
              ++ [Event.rateWait] ++ (if ts then [Event.screenshotRun url] else [])
              ++ [Event.net (.pageFetch url (some (15, 45)))]
          from by simp [scrape_url, hra, hres]] at hc
        cases ts <;> simp [List.mem_append] at hc <;>
          rcases hc with hc | hc
        · exact hrcase hc
        · rw [hc]; rfl
        · exact hrcase hc
        · rw [hc]; rfl
    | connectionExc m =>
        rw [show (scrape_url env url ts).snd
            = (respect_robots_txt env.urls env.canFetch url env.robotsResult).snd
              ++ [Event.rateWait] ++ (if ts then [Event.screenshotRun url] else [])
              ++ [Event.net (.pageFetch url (some (15, 45)))]
          from by simp [scrape_url, hra, hres]] at hc
        cases ts <;> simp [List.mem_append] at hc <;>
          rcases hc with hc | hc
        · exact hrcase hc
        · rw [hc]; rfl
        · exact hrcase hc
        · rw [hc]; rfl
    | requestExc m =>
        rw [show (scrape_url env url ts).snd
            = (respect_robots_txt env.urls env.canFetch url env.robotsResult).snd
              ++ [Event.rateWait] ++ (if ts then [Event.screenshotRun url] else [])
              ++ [Event.net (.pageFetch url (some (15, 45)))]
          from by simp [scrape_url, hra, hres]] at hc
        cases ts <;> simp [List.mem_append] at hc <;>
          rcases hc with hc | hc
        · exact hrcase hc
        · rw [hc]; rfl
        · exact hrcase hc
        · rw [hc]; rfl
    | ok text len code ctype =>
        rw [show (scrape_url env url ts).snd
            = (respect_robots_txt env.urls env.canFetch url env.robotsResult).snd
              ++ [Event.rateWait] ++ (if ts then [Event.screenshotRun url] else [])
              ++ [Event.net (.pageFetch url (some (15, 45)))] ++ [Event.parseHtml]
              ++ ((env.doc.imgTags.map
                    (fun t => get_image_data env.urls env.imageFetch t url)).map
                      Prod.snd).flatten
              ++ ((env.doc.aTags.map
                    (fun t => get_link_data env.urls env.headResult t url)).map
                      Prod.snd).flatten
          from by simp [scrape_url, hra, hres]] at hc
        rcases List.mem_append.mp hc with h1 | hlink
        · rcases List.mem_append.mp h1 with h2 | himg
          · rcases List.mem_append.mp h2 with h3 | hparse
            · rcases List.mem_append.mp h3 with h4 | hpf
              · rcases List.mem_append.mp h4 with h5 | hshot
                · rcases List.mem_append.mp h5 with h6 | hrw
                  · exact hrcase h6
                  · simp at hrw
                · cases ts
                  · simp at hshot
                  · simp at hshot
              · simp at hpf; rw [hpf]; rfl
            · simp at hparse
          · rw [List.mem_flatten] at himg
            obtain ⟨l, hl, hcl⟩ := himg
            rw [List.mem_map] at hl
            obtain ⟨run, hrun, rfl⟩ := hl
            rw [List.mem_map] at hrun
            obtain ⟨tag, htag, rfl⟩ := hrun
            obtain ⟨u, hu⟩ := image_events_mem _ _ _ _ _ hcl
            simp at hu; rw [hu]; rfl
        · rw [List.mem_flatten] at hlink
          obtain ⟨l, hl, hcl⟩ := hlink
          rw [List.mem_map] at hl
          obtain ⟨run, hrun, rfl⟩ := hl
          rw [List.mem_map] at hrun
          obtain ⟨tag, htag, rfl⟩ := hrun
          obtain ⟨u, hu⟩ := link_events_mem _ _ _ _ _ hcl
          simp at hu; rw [hu]; rfl
  · have hra' : (respect_robots_txt env.urls env.canFetch url env.robotsResult).fst = false :=
      by revert hra; cases (respect_robots_txt env.urls env.canFetch url env.robotsResult).fst <;> simp
    rw [show (scrape_url env url ts).snd
        = (respect_robots_txt env.urls env.canFetch url env.robotsResult).snd
      from by simp [scrape_url, hra']] at hc
    exact hrcase hc

/-- C7, witness: the amended theorem applied to the main page fetch call
present in a successful-scrape trace. -/
theorem claim_net_call_timeouts_witness :
    NetCall.timeoutOf (.pageFetch "http://example.com/a" (some (15, 45)))
      = NetCall.sourceTimeoutOf (.pageFetch "http://example.com/a" (some (15, 45))) :=
  claim_net_call_timeouts envSDFail "http://example.com/a" false
    (.pageFetch "http://example.com/a" (some (15, 45))) (by decide)

end ScrapeEliza
